import Mathlib

/-
Verification development for the async-hd44780 LCD driver
(src/async-hd44780.js).

The driver is a callback-chained asynchronous state machine over a single
process-wide session.  We embed it shallowly: the observable behaviour of
each public entry point (initialize, finalize, clearScreen, printLine) is a
pure function from the session state to a new session state together with
the list of observable events it emits (line setups, byte transfers, the
GPIO teardown, and callback invocations).  A multi-step byte-transfer
sequence started by an operation is "in flight" until the external line
driver reports its overall result; that report is modelled by the separate
step function `fireComplete`, which runs the completion handler the
operation registered.  This splits each asynchronous operation at exactly
the suspension point the source uses (the final callback of the
async.series chain), so a `finalize` call arriving between the start and
the completion of an operation is modelled by calling `finalize` between
the start function and `fireComplete`.
-/

namespace HD44780

/-- LCDCommand constants from the source. -/
def CLEARDISPLAY : Nat := 0x01
def ENTRYMODESET : Nat := 0x04
def DISPLAYCONTROL : Nat := 0x08
def FUNCTIONSET : Nat := 0x20
def SETDDRAMADDR : Nat := 0x80

/-- LCDControlFlags constants from the source. -/
def DISPLAYON : Nat := 0x04
def CURSOROFF : Nat := 0x00
def BLINKOFF : Nat := 0x00

/-- LCDFunctionSetFlags constants from the source. -/
def FOURBITMODE : Nat := 0x00
def TWOLINE : Nat := 0x08
def FIVEBYEIGHTDOTS : Nat := 0x00

/-- LCDEntryModeFlags constants from the source. -/
def ENTRYLEFT : Nat := 0x02
def ENTRYSHIFTDECREMENT : Nat := 0x00

/-- Row base address table (source line 80). -/
def LCDRowOffset : List Nat := [0x00, 0x40, 0x14, 0x54]

/-- RS line value for data writes (source line 83). -/
def LCD_RS_DATA : Bool := true

/-- RS line value for command writes (source line 84). -/
def LCD_RS_CMD : Bool := false

/-- Device configuration (pinout and geometry), after merging with defaults. -/
structure Config where
  pin_rs : Nat
  pin_e : Nat
  pin_d4 : Nat
  pin_d5 : Nat
  pin_d6 : Nat
  pin_d7 : Nat
  pin_bl : Nat
  cols : Nat
  rows : Nat
deriving DecidableEq

/-- DEFAULT_CONFIG from the source (lines 88-98). -/
def DEFAULT_CONFIG : Config :=
  { pin_rs := 27, pin_e := 22, pin_d4 := 25, pin_d5 := 24
  , pin_d6 := 23, pin_d7 := 18, pin_bl := 15, cols := 16, rows := 2 }

/-- Caller-supplied configuration: each recognized field is optional. -/
structure ConfigProps where
  pin_rs : Option Nat := none
  pin_e : Option Nat := none
  pin_d4 : Option Nat := none
  pin_d5 : Option Nat := none
  pin_d6 : Option Nat := none
  pin_d7 : Option Nat := none
  pin_bl : Option Nat := none
  cols : Option Nat := none
  rows : Option Nat := none
deriving DecidableEq

/-- initDefaultProperties (source lines 142-171): merge the supplied
properties over the defaults; an absent properties object yields the
defaults.  (The source type-checks each field; with Nat-valued fields the
types always agree, so the merge is a plain getD.) -/
def initDefaultProperties (props : Option ConfigProps) : Config :=
  match props with
  | none => DEFAULT_CONFIG
  | some p =>
    { pin_rs := p.pin_rs.getD DEFAULT_CONFIG.pin_rs
    , pin_e := p.pin_e.getD DEFAULT_CONFIG.pin_e
    , pin_d4 := p.pin_d4.getD DEFAULT_CONFIG.pin_d4
    , pin_d5 := p.pin_d5.getD DEFAULT_CONFIG.pin_d5
    , pin_d6 := p.pin_d6.getD DEFAULT_CONFIG.pin_d6
    , pin_d7 := p.pin_d7.getD DEFAULT_CONFIG.pin_d7
    , pin_bl := p.pin_bl.getD DEFAULT_CONFIG.pin_bl
    , cols := p.cols.getD DEFAULT_CONFIG.cols
    , rows := p.rows.getD DEFAULT_CONFIG.rows }

/-- Errors a callback can receive (null is modelled as Option.none). -/
inductive JsError
  | notInitialized
  | invalidParameter
  | lineWrite (code : Nat)
deriving DecidableEq

/-- Observable events of a run: output-line setup, one byte transfer
(a writeByte call, with its RS mode), the GPIO teardown, and a callback
invocation carrying its argument. -/
inductive Ev
  | setup (pin : Nat)
  | write (bits : Nat) (mode : Bool)
  | destroy
  | cb (id : Nat) (err : Option JsError)
deriving DecidableEq

/-- The three values of theFinalize (source lines 119-121). -/
inductive FinKind
  | FINALIZE_NONE
  | FINALIZE_NORMAL
  | FINALIZE_CLEARSCREEN
deriving DecidableEq

/-- A callback value the driver can hold: either a caller-supplied callback
(identified by a number) or the doShutdown closure built inside shutdown,
capturing the callback shutdown was given. -/
inductive Callback
  | user (id : Nat)
  | shutdownCb (fin : Option Nat)
deriving DecidableEq

/-- The completion handler registered with the in-flight byte-transfer
sequence: the final callback of the async.series chain in initialize
(lines 358-367), clearScreen (lines 422-432) or printLine (lines 464-474). -/
inductive Cont
  | initDone (cbId : Nat)
  | clearDone (cb : Callback)
  | printDone (cbId : Nat)
deriving DecidableEq

/-- The process-wide mutable state of the driver (source lines 101-124),
plus `inflight`: the completion handler of the byte-transfer sequence
currently in flight, if any (implicit in the source as the pending
async.series final callback). -/
structure St where
  theConfig : Option Config
  thePendingCmd : Bool
  theFinalize : FinKind
  theFinalizeCallback : Option Nat
  inflight : Option Cont
deriving DecidableEq

/-- doShutdown (source lines 181-185): clear theConfig, tear down the GPIO
subsystem and invoke the captured callback with the teardown result. -/
def doShutdown (cbArg : Option Nat) (s : St) : St × List Ev :=
  ({ s with theConfig := none },
   Ev.destroy :: (match cbArg with
                  | some id => [Ev.cb id none]
                  | none => []))

/-- Invoke a held callback value with a result.  A user callback produces a
callback event; the doShutdown closure ignores its argument and performs
the teardown. -/
def invokeCallback (c : Callback) (err : Option JsError) (s : St) : St × List Ev :=
  match c with
  | Callback.user id => (s, [Ev.cb id err])
  | Callback.shutdownCb fin => doShutdown fin s

/-- clearScreen (source lines 411-433), generalized over the callback value
so it covers both the public entry point (user callback) and the call from
shutdown (doShutdown closure).  When initialized it marks the command
pending, registers its completion handler and starts the single
clear-display byte transfer. -/
def clearScreenCore (cb : Callback) (s : St) : St × List Ev :=
  match s.theConfig with
  | none => invokeCallback cb (some JsError.notInitialized) s
  | some _ =>
    ({ s with thePendingCmd := true, inflight := some (Cont.clearDone cb) },
     [Ev.write CLEARDISPLAY LCD_RS_CMD])

/-- Public clearScreen: the callback is caller-supplied. -/
def clearScreen (cbId : Nat) (s : St) : St × List Ev :=
  clearScreenCore (Callback.user cbId) s

/-- shutdown (source lines 180-192): with clear set it runs clearScreen
with the doShutdown closure as callback (so the teardown happens when the
clear-display transfer completes); otherwise it tears down immediately. -/
def shutdown (clear : Bool) (cbArg : Option Nat) (s : St) : St × List Ev :=
  if clear then
    clearScreenCore (Callback.shutdownCb cbArg) s
  else
    doShutdown cbArg s

/-- The clear flag a completion handler derives from theFinalize
(source lines 426 and 468). -/
def finClearFlag : FinKind → Bool
  | FinKind.FINALIZE_CLEARSCREEN => true
  | _ => false

/-- The line driver reports the overall result `err` of the in-flight
byte-transfer sequence; the registered completion handler runs
(source lines 358-367, 422-432, 464-474): clear thePendingCmd, then either
run the deferred shutdown (consuming theFinalize) or invoke the
operation's own callback with `err`. -/
def fireComplete (err : Option JsError) (s : St) : St × List Ev :=
  match s.inflight with
  | none => (s, [])
  | some (Cont.initDone cbId) =>
    let s1 : St := { s with thePendingCmd := false, inflight := none }
    match s1.theFinalize with
    | FinKind.FINALIZE_NONE => (s1, [Ev.cb cbId err])
    | _ =>
      shutdown false s1.theFinalizeCallback
        { s1 with theFinalize := FinKind.FINALIZE_NONE }
  | some (Cont.clearDone cb) =>
    let s1 : St := { s with thePendingCmd := false, inflight := none }
    match s1.theFinalize with
    | FinKind.FINALIZE_NONE => invokeCallback cb err s1
    | k =>
      shutdown (finClearFlag k) s1.theFinalizeCallback
        { s1 with theFinalize := FinKind.FINALIZE_NONE }
  | some (Cont.printDone cbId) =>
    let s1 : St := { s with thePendingCmd := false, inflight := none }
    match s1.theFinalize with
    | FinKind.FINALIZE_NONE => (s1, [Ev.cb cbId err])
    | k =>
      shutdown (finClearFlag k) s1.theFinalizeCallback
        { s1 with theFinalize := FinKind.FINALIZE_NONE }

/-- finalize (source lines 382-400).  Note the source line 388 reads
`theFinalize = (clearScreen ? FINALIZE_CLEARSCREEN : FINALIZE_NORMAL)`:
the condition is the clearScreen function object, which is always truthy,
so the recorded kind is FINALIZE_CLEARSCREEN regardless of the `clear`
argument; the embedding reproduces that. -/
def finalize (clear : Bool) (cbId : Nat) (s : St) : St × List Ev :=
  match s.theConfig, s.theFinalize with
  | some _, FinKind.FINALIZE_NONE =>
    if s.thePendingCmd then
      ({ s with theFinalize := FinKind.FINALIZE_CLEARSCREEN
              , theFinalizeCallback := some cbId }, [])
    else
      shutdown clear (some cbId) s
  | _, _ => (s, [Ev.cb cbId none])

/-- The row address byte index used by printLine (source lines 450 and
458): the row offset table entry at `line mod rows`.  The default value of
getD is unreachable whenever 0 < rows and rows is at most 4. -/
def rowAddress (rows : Nat) (line : Nat) : Nat :=
  LCDRowOffset.getD (line % rows) 0

/-- printLine (source lines 444-475).  The message is the list of its
character codes.  When initialized it wraps the row index modulo the
configured rows, truncates the message to the configured columns, marks
the command pending, registers its completion handler and starts the
address-set transfer followed by one data transfer per character; the list
order models the strict async.series / timesSeries sequencing (transfer
i+1 begins only after transfer i completes). -/
def printLine (message : List Nat) (line : Nat) (cbId : Nat) (s : St) : St × List Ev :=
  match s.theConfig with
  | none => (s, [Ev.cb cbId (some JsError.notInitialized)])
  | some cfg =>
    let msg := if message.length > cfg.cols then message.take cfg.cols else message
    ({ s with thePendingCmd := true, inflight := some (Cont.printDone cbId) },
     Ev.write (SETDDRAMADDR ||| rowAddress cfg.rows line) LCD_RS_CMD
       :: msg.map (fun ch => Ev.write ch LCD_RS_DATA))

/-- The setup and byte-transfer events of the initialize sequence
(source lines 325-357): configure the seven output lines, then the two
wake-up bytes, display control, function set, entry mode, and
clear display, all in command mode. -/
def initSequenceEvents (cfg : Config) : List Ev :=
  [ Ev.setup cfg.pin_e, Ev.setup cfg.pin_rs
  , Ev.setup cfg.pin_d4, Ev.setup cfg.pin_d5
  , Ev.setup cfg.pin_d6, Ev.setup cfg.pin_d7, Ev.setup cfg.pin_bl
  , Ev.write 0x33 LCD_RS_CMD
  , Ev.write 0x32 LCD_RS_CMD
  , Ev.write (DISPLAYCONTROL ||| DISPLAYON ||| CURSOROFF ||| BLINKOFF) LCD_RS_CMD
  , Ev.write (FUNCTIONSET ||| FOURBITMODE ||| TWOLINE ||| FIVEBYEIGHTDOTS) LCD_RS_CMD
  , Ev.write (ENTRYMODESET ||| ENTRYLEFT ||| ENTRYSHIFTDECREMENT) LCD_RS_CMD
  , Ev.write CLEARDISPLAY LCD_RS_CMD ]

/-- initialize (source lines 309-368).  Already initialized: immediate
success without side effects.  Otherwise the merged configuration is
stored, then validated: more rows than the offset table has entries fails
with the invalid-parameter error (note the stored configuration is NOT
cleared on this failure).  On success the deferred-shutdown slots are
reset, the command is marked pending, the completion handler is registered
and the setup plus reset sequence starts. -/
def initializeLcd (props : Option ConfigProps) (cbId : Nat) (s : St) : St × List Ev :=
  match s.theConfig with
  | some _ => (s, [Ev.cb cbId none])
  | none =>
    let cfg := initDefaultProperties props
    let s1 : St := { s with theConfig := some cfg }
    if cfg.rows > LCDRowOffset.length then
      (s1, [Ev.cb cbId (some JsError.invalidParameter)])
    else
      ({ s1 with theFinalize := FinKind.FINALIZE_NONE
               , theFinalizeCallback := none
               , thePendingCmd := true
               , inflight := some (Cont.initDone cbId) },
       initSequenceEvents cfg)

/-- toggleEnable observable events (source lines 222-231): enable-pin
levels and scheduler waits, at the granularity of the four async.series
sub-steps. -/
inductive PinEv
  | pinWrite (pin : Nat) (level : Bool)
  | timer (ms : Nat)
deriving DecidableEq

/-- The async.series chain inside toggleEnable: four strictly ordered
sub-steps (drive enable low, after 1 ms drive it high, after 1 ms drive it
low, wait 1 ms).  `drv i` is the result the line driver reports for the
i-th enable-pin write of this pulse.  Returns the events that actually
happened and the error async.series hands to its final callback: a failing
write aborts the remaining sub-steps. -/
def toggleEnableSeries (pin_e : Nat) (drv : Nat → Option JsError) :
    List PinEv × Option JsError :=
  match drv 0 with
  | some e => ([PinEv.pinWrite pin_e false], some e)
  | none =>
    match drv 1 with
    | some e =>
      ([PinEv.pinWrite pin_e false, PinEv.timer 1, PinEv.pinWrite pin_e true], some e)
    | none =>
      match drv 2 with
      | some e =>
        ([PinEv.pinWrite pin_e false, PinEv.timer 1, PinEv.pinWrite pin_e true,
          PinEv.timer 1, PinEv.pinWrite pin_e false], some e)
      | none =>
        ([PinEv.pinWrite pin_e false, PinEv.timer 1, PinEv.pinWrite pin_e true,
          PinEv.timer 1, PinEv.pinWrite pin_e false, PinEv.timer 1], none)

/-- toggleEnable (source lines 222-231): the final callback of the
async.series chain discards the error argument and invokes the caller
callback with null, so the result delivered to the caller is always none.
The second component is what the caller callback receives. -/
def toggleEnable (pin_e : Nat) (drv : Nat → Option JsError) :
    List PinEv × Option JsError :=
  ((toggleEnableSeries pin_e drv).1, none)

/-- The callback invocation events of a run, in order, as pairs of the
callback identifier and the argument it received. -/
def cbEvents : List Ev → List (Nat × Option JsError)
  | [] => []
  | Ev.cb id err :: rest => (id, err) :: cbEvents rest
  | Ev.setup _ :: rest => cbEvents rest
  | Ev.write _ _ :: rest => cbEvents rest
  | Ev.destroy :: rest => cbEvents rest

/-- The number of GPIO teardown events in a run. -/
def countDestroy : List Ev → Nat
  | [] => 0
  | Ev.destroy :: rest => countDestroy rest + 1
  | Ev.cb _ _ :: rest => countDestroy rest
  | Ev.setup _ :: rest => countDestroy rest
  | Ev.write _ _ :: rest => countDestroy rest

/-- The canonical session state after a successful initialize completes
with configuration cfg and no pending work. -/
def readyState (cfg : Config) : St :=
  { theConfig := some cfg, thePendingCmd := false
  , theFinalize := FinKind.FINALIZE_NONE, theFinalizeCallback := none
  , inflight := none }

/-- The empty, uninitialized session state (module load time). -/
def uninitState : St :=
  { theConfig := none, thePendingCmd := false
  , theFinalize := FinKind.FINALIZE_NONE, theFinalizeCallback := none
  , inflight := none }

/-- A session state with configuration cfg and an operation in flight whose
completion handler is c, with no deferred shutdown recorded. -/
def inflightState (cfg : Config) (c : Cont) : St :=
  { theConfig := some cfg, thePendingCmd := true
  , theFinalize := FinKind.FINALIZE_NONE, theFinalizeCallback := none
  , inflight := some c }

/-- Completion handlers registered by the public entry points for a user
callback, as opposed to the clearDone handler a shutdown registers for its
own clear-display transfer. -/
def Cont.isUser : Cont → Bool
  | Cont.initDone _ => true
  | Cont.printDone _ => true
  | Cont.clearDone (Callback.user _) => true
  | Cont.clearDone (Callback.shutdownCb _) => false

theorem cbEvents_append (l1 l2 : List Ev) :
    cbEvents (l1 ++ l2) = cbEvents l1 ++ cbEvents l2 := by
  induction l1 with
  | nil => rfl
  | cons e rest ih => cases e <;> simp [cbEvents, ih]

theorem cbEvents_map_write (l : List Nat) (m : Bool) :
    cbEvents (l.map (fun ch => Ev.write ch m)) = [] := by
  induction l with
  | nil => rfl
  | cons a rest ih => simp [cbEvents, ih]

theorem countDestroy_append (l1 l2 : List Ev) :
    countDestroy (l1 ++ l2) = countDestroy l1 + countDestroy l2 := by
  induction l1 with
  | nil => simp [countDestroy]
  | cons e rest ih =>
    cases e
    all_goals simp [countDestroy, ih]
    all_goals omega

theorem countDestroy_map_write (l : List Nat) (m : Bool) :
    countDestroy (l.map (fun ch => Ev.write ch m)) = 0 := by
  induction l with
  | nil => rfl
  | cons a rest ih => simp [countDestroy, ih]

theorem countDestroy_cb_of_opt (o : Option Nat) :
    countDestroy (match o with | some id => [Ev.cb id none] | none => []) = 0 := by
  cases o <;> rfl

/-- C8: after initialize with a 2-row, 16-column configuration,
printLine of the message Hello at row 0 issues exactly one command-mode
address-set byte of value 0x80 ||| 0x00, followed by exactly 5 data-mode
byte transfers carrying the character codes of H, e, l, l, o, strictly in
that order (the event-list order models the strict sequencing of the
transfer chain), and the operation then completes successfully. -/
theorem C8_hello_scenario :
    (initializeLcd (some { rows := some 2, cols := some 16 }) 1 uninitState).1.theConfig
        = some { DEFAULT_CONFIG with rows := 2, cols := 16 } ∧
    (let r0 := initializeLcd (some { rows := some 2, cols := some 16 }) 1 uninitState
     let r1 := fireComplete none r0.1
     let r2 := printLine [72, 101, 108, 108, 111] 0 2 r1.1
     cbEvents r1.2 = [(1, none)] ∧
     r2.2 = [ Ev.write (0x80 ||| 0x00) LCD_RS_CMD
            , Ev.write 72 LCD_RS_DATA, Ev.write 101 LCD_RS_DATA
            , Ev.write 108 LCD_RS_DATA, Ev.write 108 LCD_RS_DATA
            , Ev.write 111 LCD_RS_DATA ] ∧
     (fireComplete none r2.1).2 = [Ev.cb 2 none]) := by decide

/-- C2 counterexample: with the default configuration initialized and a
printLine in flight (thePendingCmd is true), a second printLine is not
rejected with a busy error: it produces no error callback at all and it
performs line-driver byte transfers (the address-set write and the data
write), contradicting the claim that a second request fails fast with a
NotInitialized-class busy error and performs no line-driver writes. -/
theorem C2_counterexample_second_request_not_rejected :
    (let s0 := readyState DEFAULT_CONFIG
     let r1 := printLine [72] 0 1 s0
     let r2 := printLine [88] 0 2 r1.1
     r1.1.thePendingCmd = true ∧
     cbEvents r2.2 = [] ∧
     r2.2 = [Ev.write 0x80 LCD_RS_CMD, Ev.write 88 LCD_RS_DATA]) ∧
    (let s0 := readyState DEFAULT_CONFIG
     let r1 := printLine [72] 0 1 s0
     let r2 := clearScreen 3 r1.1
     cbEvents r2.2 = [] ∧
     r2.2 = [Ev.write CLEARDISPLAY LCD_RS_CMD]) := by decide

/-- C2 amended: while an operation is in flight, a second printLine or
clearScreen request is not rejected; the implementation checks only that
the session is initialized, so the second request reports no error and
immediately issues its line-driver writes, interleaving with the in-flight
operation. -/
theorem C2_second_request_proceeds (cfg : Config) (c : Cont)
    (msg : List Nat) (line cb1 cb2 : Nat) :
    (cbEvents (printLine msg line cb1 (inflightState cfg c)).2 = [] ∧
     (printLine msg line cb1 (inflightState cfg c)).2.head? =
       some (Ev.write (SETDDRAMADDR ||| rowAddress cfg.rows line) LCD_RS_CMD) ∧
     (printLine msg line cb1 (inflightState cfg c)).1.thePendingCmd = true) ∧
    (cbEvents (clearScreen cb2 (inflightState cfg c)).2 = [] ∧
     (clearScreen cb2 (inflightState cfg c)).2 =
       [Ev.write CLEARDISPLAY LCD_RS_CMD]) := by
  refine ⟨⟨?_, ?_, ?_⟩, ?_, ?_⟩ <;>
    simp [printLine, clearScreen, clearScreenCore, inflightState, cbEvents,
          cbEvents_map_write]

/-- C3: the claim states that finalize during an in-flight operation
records the shutdown kind corresponding to its clear argument, Normal when
false.  The source (line 388) instead tests the clearScreen function
object, which is always truthy, so finalize with clear set to false still
records FINALIZE_CLEARSCREEN, and the deferred shutdown then issues a
clear-display transfer although the caller asked for a normal shutdown. -/
theorem C3_finalize_false_records_clearscreen :
    (let s := inflightState DEFAULT_CONFIG (Cont.printDone 9)
     let r := finalize false 7 s
     r.1.theFinalize = FinKind.FINALIZE_CLEARSCREEN ∧
     r.1.theFinalizeCallback = some 7 ∧
     (fireComplete none r.1).2 = [Ev.write CLEARDISPLAY LCD_RS_CMD]) := by decide

/-- C4 counterexample: initialize with rows equal to 5 fails with the
invalid-parameter error, but the merged configuration stays stored, so the
session is not left uninitialized; a subsequent initialize is treated as
already initialized and succeeds immediately, emitting no setup or
transfer events instead of running the full setup. -/
theorem C4_counterexample_config_retained :
    (let p5 : ConfigProps := { rows := some 5 }
     let r1 := initializeLcd (some p5) 0 uninitState
     let r2 := initializeLcd (some p5) 1 r1.1
     r1.2 = [Ev.cb 0 (some JsError.invalidParameter)] ∧
     r1.1.theConfig = some (initDefaultProperties (some p5)) ∧
     r2.2 = [Ev.cb 1 none] ∧ r2.1 = r1.1) := by decide

/-- C5: the claim states that a line-driver error at any of the four
toggleEnable sub-steps aborts the remaining sub-steps (which the code
does) and propagates the error to the pulse completion callback.  The
source (lines 228-230) instead discards the async.series error and always
invokes the callback with null, contradicting its own doc comment
(lines 218-220); with the line driver failing the very first enable-pin
write, only that write happens, the series error is the line-write error,
yet the caller callback receives none (success). -/
theorem C5_toggleEnable_swallows_error :
    (let drv : Nat → Option JsError :=
       fun i => if i = 0 then some (JsError.lineWrite 5) else none
     toggleEnable 22 drv = ([PinEv.pinWrite 22 false], none) ∧
     (toggleEnableSeries 22 drv).2 = some (JsError.lineWrite 5)) := by decide

/-- C1: for each of the three operations (initialize, clearScreen,
printLine) in flight when a finalize request arrives, the deferred
shutdown executes when the operation completes, the finalize caller
callback is invoked exactly once and only after the operation finishes
(no callback event occurs up to and including the finalize call itself),
and the original operation callback is never invoked: the only callback
event of the whole run is the finalize callback, and the session ends
uninitialized. -/
theorem C1_deferred_shutdown_callback_precedence
    (cfg : Config) (props : Option ConfigProps) (msg : List Nat) (line : Nat)
    (opCb fCb : Nat) (clear : Bool) (err err2 : Option JsError)
    (hrows : (initDefaultProperties props).rows ≤ LCDRowOffset.length) :
    (let r1 := printLine msg line opCb (readyState cfg)
     let r2 := finalize clear fCb r1.1
     let r3 := fireComplete err r2.1
     let r4 := fireComplete err2 r3.1
     cbEvents (r1.2 ++ r2.2) = [] ∧
     cbEvents (r3.2 ++ r4.2) = [(fCb, none)] ∧
     r4.1.theConfig = none) ∧
    (let r1 := clearScreen opCb (readyState cfg)
     let r2 := finalize clear fCb r1.1
     let r3 := fireComplete err r2.1
     let r4 := fireComplete err2 r3.1
     cbEvents (r1.2 ++ r2.2) = [] ∧
     cbEvents (r3.2 ++ r4.2) = [(fCb, none)] ∧
     r4.1.theConfig = none) ∧
    (let r1 := initializeLcd props opCb uninitState
     let r2 := finalize clear fCb r1.1
     let r3 := fireComplete err r2.1
     cbEvents (r1.2 ++ r2.2) = [] ∧
     cbEvents r3.2 = [(fCb, none)] ∧
     r3.1.theConfig = none) := by
  have hno : ¬ ((initDefaultProperties props).rows > LCDRowOffset.length) := by omega
  refine ⟨?_, ?_, ?_⟩ <;>
    simp [printLine, clearScreen, clearScreenCore, finalize, fireComplete,
          shutdown, invokeCallback, doShutdown, finClearFlag, readyState,
          uninitState, initializeLcd, initSequenceEvents, hno,
          cbEvents, cbEvents_append, cbEvents_map_write]

/-- C1 witness: printLine of one character, clearScreen and initialize with
the default configuration, finalize with clear set to false arriving while
each is in flight, successful transfers. -/
theorem C1_deferred_shutdown_callback_precedence_witness :
    (let r1 := printLine [72] 0 1 (readyState DEFAULT_CONFIG)
     let r2 := finalize false 2 r1.1
     let r3 := fireComplete none r2.1
     let r4 := fireComplete none r3.1
     cbEvents (r1.2 ++ r2.2) = [] ∧
     cbEvents (r3.2 ++ r4.2) = [(2, none)] ∧
     r4.1.theConfig = none) ∧
    (let r1 := clearScreen 1 (readyState DEFAULT_CONFIG)
     let r2 := finalize false 2 r1.1
     let r3 := fireComplete none r2.1
     let r4 := fireComplete none r3.1
     cbEvents (r1.2 ++ r2.2) = [] ∧
     cbEvents (r3.2 ++ r4.2) = [(2, none)] ∧
     r4.1.theConfig = none) ∧
    (let r1 := initializeLcd none 1 uninitState
     let r2 := finalize false 2 r1.1
     let r3 := fireComplete none r2.1
     cbEvents (r1.2 ++ r2.2) = [] ∧
     cbEvents r3.2 = [(2, none)] ∧
     r3.1.theConfig = none) :=
  C1_deferred_shutdown_callback_precedence DEFAULT_CONFIG none [72] 0 1 2
    false none none (by decide)

/-- C6: the row address printLine uses is the entry of the fixed table
0x00, 0x40, 0x14, 0x54 at index r mod rows, for every configured rows
between 1 and 4 and every non-negative row index; it is invariant under
reducing the index modulo rows; the first transfer of printLine is the
address-set byte 0x80 ORed with that entry; and printLine of the message X
at row 5 on the default 2-row display emits the address-set byte
0x80 ||| 0x40. -/
theorem C6_row_address_modular (rows r line cbId : Nat) (cfg : Config)
    (msg : List Nat) (h1 : 0 < rows) (h2 : rows ≤ 4) :
    rowAddress rows r = [0x00, 0x40, 0x14, 0x54].getD (r % rows) 0 ∧
    rowAddress rows r = rowAddress rows (r % rows) ∧
    (printLine msg line cbId (readyState cfg)).2.head? =
      some (Ev.write (SETDDRAMADDR ||| rowAddress cfg.rows line) LCD_RS_CMD) ∧
    (printLine [88] 5 cbId (readyState DEFAULT_CONFIG)).2.head? =
      some (Ev.write (0x80 ||| 0x40) LCD_RS_CMD) := by
  refine ⟨rfl, ?_, ?_, rfl⟩
  · simp [rowAddress]
  · simp [printLine, readyState]

/-- C6 witness at rows = 2, r = 5, the default configuration and an
arbitrary concrete message. -/
theorem C6_row_address_modular_witness :
    rowAddress 2 5 = [0x00, 0x40, 0x14, 0x54].getD (5 % 2) 0 ∧
    rowAddress 2 5 = rowAddress 2 (5 % 2) ∧
    (printLine [72] 0 3 (readyState DEFAULT_CONFIG)).2.head? =
      some (Ev.write (SETDDRAMADDR ||| rowAddress DEFAULT_CONFIG.rows 0) LCD_RS_CMD) ∧
    (printLine [88] 5 3 (readyState DEFAULT_CONFIG)).2.head? =
      some (Ev.write (0x80 ||| 0x40) LCD_RS_CMD) :=
  C6_row_address_modular 2 5 0 3 DEFAULT_CONFIG [72] (by decide) (by decide)

/-- C7: for every initialized session and every message longer than the
configured columns, printLine emits the address-set transfer followed by
data transfers for exactly the first columns characters of the message
(the truncation keeps the prefix: the kept part followed by the dropped
part is the original message), and the operation then completes without
error. -/
theorem C7_truncation (cfg : Config) (msg : List Nat) (line cbId : Nat)
    (h : msg.length > cfg.cols) :
    (printLine msg line cbId (readyState cfg)).2 =
      Ev.write (SETDDRAMADDR ||| rowAddress cfg.rows line) LCD_RS_CMD
        :: (msg.take cfg.cols).map (fun ch => Ev.write ch LCD_RS_DATA) ∧
    (msg.take cfg.cols).length = cfg.cols ∧
    msg.take cfg.cols ++ msg.drop cfg.cols = msg ∧
    (fireComplete none (printLine msg line cbId (readyState cfg)).1).2 =
      [Ev.cb cbId none] := by
  refine ⟨?_, ?_, List.take_append_drop _ _, ?_⟩
  · simp [printLine, readyState, h]
  · simp only [List.length_take]
    omega
  · simp [printLine, readyState, fireComplete]

/-- C7 witness: a 17-character message on the default 16-column display. -/
theorem C7_truncation_witness :
    (printLine (List.replicate 17 72) 0 3 (readyState DEFAULT_CONFIG)).2 =
      Ev.write (SETDDRAMADDR ||| rowAddress DEFAULT_CONFIG.rows 0) LCD_RS_CMD
        :: ((List.replicate 17 72).take DEFAULT_CONFIG.cols).map
             (fun ch => Ev.write ch LCD_RS_DATA) ∧
    ((List.replicate 17 72).take DEFAULT_CONFIG.cols).length = DEFAULT_CONFIG.cols ∧
    (List.replicate 17 72).take DEFAULT_CONFIG.cols
        ++ (List.replicate 17 72).drop DEFAULT_CONFIG.cols = List.replicate 17 72 ∧
    (fireComplete none
        (printLine (List.replicate 17 72) 0 3 (readyState DEFAULT_CONFIG)).1).2 =
      [Ev.cb 3 none] :=
  C7_truncation DEFAULT_CONFIG (List.replicate 17 72) 0 3 (by decide)

/-- C4 amended: whenever initialize fails, the merged configuration stays
stored rather than the session being left uninitialized: the
invalid-rows validation failure reports the invalid-parameter error with
the configuration already stored; a line-driver failure during the reset
sequence reports that error to the caller with the configuration still
stored; and any subsequent initialize on a session with a stored
configuration is treated as already initialized: it succeeds immediately
and performs no setup. -/
theorem C4_amended_failed_initialize_retains_config
    (propsBad propsOk propsAny : Option ConfigProps) (cb1 cb2 cb3 : Nat)
    (e : JsError) (cfg : Config) (s : St)
    (hBad : (initDefaultProperties propsBad).rows > LCDRowOffset.length)
    (hOk : (initDefaultProperties propsOk).rows ≤ LCDRowOffset.length)
    (hs : s.theConfig = some cfg) :
    (initializeLcd propsBad cb1 uninitState).2 =
      [Ev.cb cb1 (some JsError.invalidParameter)] ∧
    (initializeLcd propsBad cb1 uninitState).1.theConfig =
      some (initDefaultProperties propsBad) ∧
    (fireComplete (some e) (initializeLcd propsOk cb2 uninitState).1).2 =
      [Ev.cb cb2 (some e)] ∧
    (fireComplete (some e) (initializeLcd propsOk cb2 uninitState).1).1.theConfig =
      some (initDefaultProperties propsOk) ∧
    initializeLcd propsAny cb3 s = (s, [Ev.cb cb3 none]) := by
  have hOkNot : ¬ ((initDefaultProperties propsOk).rows > LCDRowOffset.length) := by
    omega
  refine ⟨?_, ?_, ?_, ?_, ?_⟩ <;>
    simp [initializeLcd, uninitState, fireComplete, hBad, hOkNot, hs]

/-- C4 amended witness: rows equal to 5 for the validation failure, the
default configuration for the reset-sequence failure and for the
subsequent call. -/
theorem C4_amended_witness :
    (initializeLcd (some { rows := some 5 }) 0 uninitState).2 =
      [Ev.cb 0 (some JsError.invalidParameter)] ∧
    (initializeLcd (some { rows := some 5 }) 0 uninitState).1.theConfig =
      some (initDefaultProperties (some { rows := some 5 })) ∧
    (fireComplete (some (JsError.lineWrite 9))
        (initializeLcd none 1 uninitState).1).2 =
      [Ev.cb 1 (some (JsError.lineWrite 9))] ∧
    (fireComplete (some (JsError.lineWrite 9))
        (initializeLcd none 1 uninitState).1).1.theConfig =
      some (initDefaultProperties none) ∧
    initializeLcd none 2 (readyState DEFAULT_CONFIG) =
      (readyState DEFAULT_CONFIG, [Ev.cb 2 none]) :=
  C4_amended_failed_initialize_retains_config (some { rows := some 5 }) none none
    0 1 2 (JsError.lineWrite 9) DEFAULT_CONFIG (readyState DEFAULT_CONFIG)
    (by decide) (by decide) (by decide)

/-- C9: a finalize call while an earlier finalize request is already
pending leaves the session state completely unchanged (the recorded
shutdown kind and callback of the first caller are not overwritten) and
only acknowledges the second caller immediately; in a full run where
finalize is called twice during an in-flight printLine, the callback
invoked when the deferred shutdown executes is the first caller callback. -/
theorem C9_second_finalize_preserves_pending
    (cfg : Config) (msg : List Nat) (line opCb f1 f2 : Nat) (c1 c2 : Bool)
    (err err2 : Option JsError) (s : St)
    (hc : s.theConfig ≠ none) (hp : s.theFinalize ≠ FinKind.FINALIZE_NONE) :
    finalize c2 f2 s = (s, [Ev.cb f2 none]) ∧
    (let r1 := printLine msg line opCb (readyState cfg)
     let r2 := finalize c1 f1 r1.1
     let r3 := finalize c2 f2 r2.1
     let r4 := fireComplete err r3.1
     let r5 := fireComplete err2 r4.1
     r3.1 = r2.1 ∧
     cbEvents r3.2 = [(f2, none)] ∧
     cbEvents (r4.2 ++ r5.2) = [(f1, none)]) := by
  constructor
  · match hcv : s.theConfig, hpv : s.theFinalize with
    | none, _ => exact absurd hcv hc
    | some _, FinKind.FINALIZE_NONE => exact absurd hpv hp
    | some _, FinKind.FINALIZE_NORMAL => simp [finalize, hcv, hpv]
    | some _, FinKind.FINALIZE_CLEARSCREEN => simp [finalize, hcv, hpv]
  · simp [printLine, finalize, fireComplete, shutdown, clearScreenCore,
          invokeCallback, doShutdown, finClearFlag, readyState,
          cbEvents, cbEvents_append, cbEvents_map_write]

/-- C9 witness: a state with a pending normal-kind shutdown recorded for
caller 5, and the full double-finalize run on the default configuration. -/
theorem C9_second_finalize_preserves_pending_witness :
    finalize true 6 { theConfig := some DEFAULT_CONFIG, thePendingCmd := true
                    , theFinalize := FinKind.FINALIZE_NORMAL
                    , theFinalizeCallback := some 5
                    , inflight := some (Cont.printDone 9) } =
      ({ theConfig := some DEFAULT_CONFIG, thePendingCmd := true
       , theFinalize := FinKind.FINALIZE_NORMAL
       , theFinalizeCallback := some 5
       , inflight := some (Cont.printDone 9) }, [Ev.cb 6 none]) ∧
    (let r1 := printLine [72] 0 1 (readyState DEFAULT_CONFIG)
     let r2 := finalize true 5 r1.1
     let r3 := finalize true 6 r2.1
     let r4 := fireComplete none r3.1
     let r5 := fireComplete none r4.1
     r3.1 = r2.1 ∧
     cbEvents r3.2 = [(6, none)] ∧
     cbEvents (r4.2 ++ r5.2) = [(5, none)]) :=
  C9_second_finalize_preserves_pending DEFAULT_CONFIG [72] 0 1 5 6 true true
    none none
    { theConfig := some DEFAULT_CONFIG, thePendingCmd := true
    , theFinalize := FinKind.FINALIZE_NORMAL, theFinalizeCallback := some 5
    , inflight := some (Cont.printDone 9) }
    (by decide) (by decide)

/-- C10: whenever an operation with a user-registered completion handler
completes, the handler clears the in-flight flag (whenever it does not
itself start the clear transfer of a deferred clear-and-shutdown) and
resets the pending-shutdown kind to FINALIZE_NONE before executing the
deferred shutdown, so a recorded deferred shutdown is consumed exactly
once: across the completion and the following completion the teardown
happens exactly once when a shutdown was pending and never otherwise, the
session ends with no in-flight work, and a further completion report is
inert. -/
theorem C10_completion_consumes_deferred_shutdown
    (s : St) (c : Cont) (err err2 err3 : Option JsError)
    (hin : s.inflight = some c) (hu : c.isUser = true) :
    (let r1 := fireComplete err s
     let r2 := fireComplete err2 r1.1
     r1.1.theFinalize = FinKind.FINALIZE_NONE ∧
     (finClearFlag s.theFinalize = false → r1.1.thePendingCmd = false) ∧
     r2.1.theFinalize = FinKind.FINALIZE_NONE ∧
     r2.1.thePendingCmd = false ∧
     r2.1.inflight = none ∧
     countDestroy (r1.2 ++ r2.2) =
       (if s.theFinalize = FinKind.FINALIZE_NONE then 0 else 1) ∧
     fireComplete err3 r2.1 = (r2.1, [])) := by
  cases c with
  | initDone cb =>
    cases hF : s.theFinalize <;> cases hC : s.theConfig <;>
      simp [fireComplete, shutdown, doShutdown, invokeCallback, clearScreenCore,
            finClearFlag, countDestroy, countDestroy_append,
            countDestroy_cb_of_opt, hin, hF, hC]
  | printDone cb =>
    cases hF : s.theFinalize <;> cases hC : s.theConfig <;>
      simp [fireComplete, shutdown, doShutdown, invokeCallback, clearScreenCore,
            finClearFlag, countDestroy, countDestroy_append,
            countDestroy_cb_of_opt, hin, hF, hC]
  | clearDone cb =>
    cases cb with
    | user id =>
      cases hF : s.theFinalize <;> cases hC : s.theConfig <;>
        simp [fireComplete, shutdown, doShutdown, invokeCallback, clearScreenCore,
              finClearFlag, countDestroy, countDestroy_append,
            countDestroy_cb_of_opt, hin, hF, hC]
    | shutdownCb fin => simp [Cont.isUser] at hu

/-- C10 witness: a printLine completion with a pending clear-and-shutdown
recorded for caller 5. -/
theorem C10_completion_consumes_deferred_shutdown_witness :
    (let r1 := fireComplete none
        { theConfig := some DEFAULT_CONFIG, thePendingCmd := true
        , theFinalize := FinKind.FINALIZE_CLEARSCREEN
        , theFinalizeCallback := some 5
        , inflight := some (Cont.printDone 9) }
     let r2 := fireComplete none r1.1
     r1.1.theFinalize = FinKind.FINALIZE_NONE ∧
     (finClearFlag ({ theConfig := some DEFAULT_CONFIG, thePendingCmd := true
                    , theFinalize := FinKind.FINALIZE_CLEARSCREEN
                    , theFinalizeCallback := some 5
                    , inflight := some (Cont.printDone 9) } : St).theFinalize
        = false → r1.1.thePendingCmd = false) ∧
     r2.1.theFinalize = FinKind.FINALIZE_NONE ∧
     r2.1.thePendingCmd = false ∧
     r2.1.inflight = none ∧
     countDestroy (r1.2 ++ r2.2) =
       (if ({ theConfig := some DEFAULT_CONFIG, thePendingCmd := true
            , theFinalize := FinKind.FINALIZE_CLEARSCREEN
            , theFinalizeCallback := some 5
            , inflight := some (Cont.printDone 9) } : St).theFinalize
            = FinKind.FINALIZE_NONE then 0 else 1) ∧
     fireComplete none r2.1 = (r2.1, [])) :=
  C10_completion_consumes_deferred_shutdown
    { theConfig := some DEFAULT_CONFIG, thePendingCmd := true
    , theFinalize := FinKind.FINALIZE_CLEARSCREEN, theFinalizeCallback := some 5
    , inflight := some (Cont.printDone 9) }
    (Cont.printDone 9) none none none (by decide) (by decide)

end HD44780
